import Mathlib

/-
Verification development for the `space-minesweeper` arcade game
(`src/index.ts`).  The per-frame simulation (`Game.update`), the input
handlers, the off-screen spawn-point rule (`Game.pointOOB`), the shared
mine-destruction operation (`Game.removeMine`) and the timer-driven spawner
are embedded shallowly.  Coordinates are modelled as rationals; calls into
the paper.js library (proximity hit tests, vector `normalize`, `angle`) are
modelled as parameters, since their geometry lives outside the repository.
-/

namespace Game

/-! ## 2D points -/

structure Point where
  x : ℚ
  y : ℚ
deriving DecidableEq

def Point.add (p q : Point) : Point := ⟨p.x + q.x, p.y + q.y⟩

instance : Add Point := ⟨Point.add⟩

/-- `paper.Point.multiply(scalar)`: componentwise scaling. -/
def Point.scale (c : ℚ) (p : Point) : Point := ⟨c * p.x, c * p.y⟩

/-! ## Session constants (`Game` constructor) -/

/-- `this.width = 1200` (project coordinates). -/
def width : ℚ := 1200

/-- `this.height = 800`. -/
def height : ℚ := 800

/-- `this.mouseSensetivity = 4` (source spelling kept). -/
def mouseSensetivity : ℚ := 4

/-! ## JavaScript `%` and the star wrap rule -/

/-- Truncation toward zero, as JavaScript division underlying `%` behaves
(the denominator of a `Rat` is positive, so `Int.tdiv` truncates toward 0). -/
def ratTrunc (q : ℚ) : ℤ := Int.tdiv q.num q.den

/-- The JavaScript remainder operator `x % b`: same sign as the dividend. -/
def jsMod (x b : ℚ) : ℚ := x - b * (ratTrunc (x / b) : ℚ)

/-- The star wrap rule from `Game.update`:
`pos = pos % bound; if (pos < 0) pos = bound`. -/
def wrapCoord (x bound : ℚ) : ℚ :=
  let m := jsMod x bound
  if m < 0 then bound else m

/-! ## Entities and game state -/

structure Star where
  pos : Point
  /-- `bounds.width`, used to scale the parallax translation. -/
  w : ℚ
deriving DecidableEq

structure Mine where
  pos : Point
  rot : ℚ
deriving DecidableEq

structure Laser where
  pos : Point
  rot : ℚ
deriving DecidableEq

structure Explosion where
  pos : Point
  /-- `bounds.width`; the explosion symbol is a circle of radius 1, so a
  freshly placed instance has bounding width 2. -/
  w : ℚ
deriving DecidableEq

structure Ship where
  pos : Point
  rot : ℚ
deriving DecidableEq

/-- The mutable session state of `Game` that the frame update touches. -/
structure GameState where
  ship : Ship
  stars : List Star
  mines : List Mine
  lasers : List Laser
  explosions : List Explosion
  /-- `this.laserDir`, index-paired with `lasers`. -/
  laserDir : List Point
  mouseVector : Point
deriving DecidableEq

/-- The paper.js services the update loop calls out to.  `hitShip` is
`curMine.hitTest(ship.position, {fill, tolerance: 30})` as a function of the
mine and ship positions; `laserHitsMine` is
`curLaser.hitTest(mine.position, {fill, tolerance: 30})` as a function of the
laser and mine positions; `homing` is
`paper.view.center.subtract(minePos).normalize(3)`. -/
structure Env where
  hitShip : Point → Point → Bool
  laserHitsMine : Point → Point → Bool
  homing : Point → Point

/-! ## Stars: parallax translation and wrap (`Game.update`, first loop) -/

/-- One star's update: translate by
`mouseVector.multiply(-0.001 * mouseSensetivity * star.bounds.width)`, then
wrap `x` by `width` and `y` by `height`. -/
def starUpdate (mv : Point) (st : Star) : Star :=
  let p := st.pos + Point.scale (-(1 / 1000) * mouseSensetivity * st.w) mv
  { st with pos := ⟨wrapCoord p.x width, wrapCoord p.y height⟩ }

/-- The star loop visits each star in order and never removes one, so it is a
map. -/
def starsStep (s : GameState) : GameState :=
  { s with stars := s.stars.map (starUpdate s.mouseVector) }

/-! ## `Game.removeMine` -/

/-- `removeMine(mine)`: place an explosion at the mine's position, add it to
the explosion group, then remove the mine.  All three call sites pass the
element at a known index, so the embedding takes the index. -/
def removeMine (s : GameState) (j : Nat) : GameState :=
  match s.mines[j]? with
  | none => s
  | some m =>
    { s with explosions := s.explosions ++ [⟨m.pos, 2⟩],
             mines := s.mines.eraseIdx j }

/-! ## The naive forward scans

Every loop in `Game.update` has the shape
`for (i = 0; i < group.length; i++) body(i)` where `body` may splice elements
out of the group being iterated (which shifts later elements down one index
while `i` still advances).  `scanLoop` reproduces this literally: the guard
re-reads the current length each iteration and the index always increments.
The fuel is the length of the group when the loop starts; since no body ever
makes its group longer, the guard `i < len s` must fail within that many
iterations, so the fuel never runs out (`scanLoop_fuel` below makes this
exact). -/

def scanLoop {α : Type} (len : α → Nat) (body : α → Nat → α) :
    Nat → α → Nat → α
  | 0, s, _ => s
  | fuel + 1, s, i => if i < len s then scanLoop len body fuel (body s i) (i + 1) else s

/-! ## Mines: homing, drift, rotation, ship collision (second loop) -/

/-- One iteration of the mine loop at index `i`. -/
def mineBody (env : Env) (s : GameState) (i : Nat) : GameState :=
  match s.mines[i]? with
  | none => s
  | some cur =>
    let p1 := cur.pos + env.homing cur.pos
    let p2 := p1 + Point.scale (-(6 / 1000) * mouseSensetivity) s.mouseVector
    let s1 := { s with mines := s.mines.set i ⟨p2, cur.rot + 1⟩ }
    if env.hitShip p2 s1.ship.pos then removeMine s1 i else s1

def mineLoop (env : Env) (s : GameState) : GameState :=
  scanLoop (fun t => t.mines.length) (mineBody env) s.mines.length s 0

/-! ## Lasers: travel, off-screen removal, mine hits (third loop) -/

/-- The off-screen test for a laser:
`x < 0 || x > width || y < 0 || y > height`. -/
def laserOOB (p : Point) : Bool :=
  if p.x < 0 ∨ width < p.x ∨ p.y < 0 ∨ height < p.y then true else false

/-- One iteration of the inner mine scan for the laser that started
iteration `i` and now sits at `lp`.  The state is paired with a flag telling
whether `curLaser.remove()` already ran for this laser: a second `remove()`
is a no-op on the group, but `laserDir.splice(i, 1)` runs unconditionally. -/
def laserHitBody (env : Env) (i : Nat) (lp : Point) (sb : GameState × Bool)
    (j : Nat) : GameState × Bool :=
  match sb.1.mines[j]? with
  | none => sb
  | some m =>
    if env.laserHitsMine lp m.pos then
      let s1 := removeMine sb.1 j
      let s2 := if sb.2 then s1 else { s1 with lasers := s1.lasers.eraseIdx i }
      ({ s2 with laserDir := s2.laserDir.eraseIdx i }, true)
    else sb

/-- One iteration of the laser loop at index `i`: translate by
`laserDir[i]`, remove (laser and paired direction) when off screen, then scan
every mine for a proximity hit.  `laserDir.getD i ⟨0,0⟩` models the read
`this.laserDir[i]`, which is in range whenever the two lists are aligned. -/
def laserBody (env : Env) (s : GameState) (i : Nat) : GameState :=
  match s.lasers[i]? with
  | none => s
  | some cur =>
    let p2 := cur.pos + s.laserDir.getD i ⟨0, 0⟩
    let s1 := { s with lasers := s.lasers.set i { cur with pos := p2 } }
    let s2 := if laserOOB p2 then
        { s1 with lasers := s1.lasers.eraseIdx i,
                  laserDir := s1.laserDir.eraseIdx i }
      else s1
    (scanLoop (fun t => t.1.mines.length) (laserHitBody env i p2)
      s2.mines.length (s2, laserOOB p2) 0).1

def laserLoop (env : Env) (s : GameState) : GameState :=
  scanLoop (fun t => t.lasers.length) (laserBody env) s.lasers.length s 0

/-! ## Explosions: growth and expiry (fourth loop) -/

/-- One iteration of the explosion loop at index `i`: `scale(1.3)`, then
remove once `bounds.width > 100`. -/
def explosionBody (s : GameState) (i : Nat) : GameState :=
  match s.explosions[i]? with
  | none => s
  | some cur =>
    let w2 := cur.w * (13 / 10)
    let s1 := { s with explosions := s.explosions.set i { cur with w := w2 } }
    if 100 < w2 then { s1 with explosions := s1.explosions.eraseIdx i } else s1

def explosionLoop (s : GameState) : GameState :=
  scanLoop (fun t => t.explosions.length) explosionBody s.explosions.length s 0

/-! ## `Game.update`: the full frame step -/

/-- One frame: stars, mines, lasers, explosions, then the population cap
(`if (mines.length > 30) removeMine(mines.children[0])`). -/
def update (env : Env) (s : GameState) : GameState :=
  let s4 := explosionLoop (laserLoop env (mineLoop env (starsStep s)))
  if 30 < s4.mines.length then removeMine s4 0 else s4

def iterUpdate (env : Env) : Nat → GameState → GameState
  | 0, s => s
  | n + 1, s => update env (iterUpdate env n s)

/-! ## `Game.pointOOB`: the off-screen spawn-point rule

`Math.random()` draws are passed in: `rB` decides the 75% "ahead" branch
(`Math.random() < 0.75`); inside the chosen branch the first draw `r1` feeds
`xPos` and the second `r2` feeds `yPos`, exactly as the source orders them. -/

def pointOOB (angle rB r1 r2 : ℚ) : Point :=
  if rB < 3 / 4 then
    if (angle < 45 ∧ 0 ≤ angle) ∨ (angle < 0 ∧ -45 ≤ angle) then
      ⟨50 * r1 + width, height * r2⟩
    else if angle ≤ -45 ∧ -135 < angle then
      ⟨width * r1, -50 * r2⟩
    else if (angle ≤ 180 ∧ 135 ≤ angle) ∨ (angle < -135 ∧ -180 ≤ angle) then
      ⟨-50 * r1, height * r2⟩
    else
      ⟨width * r1, 50 * r2 + height⟩
  else
    if (angle < 45 ∧ 0 ≤ angle) ∨ (angle < 0 ∧ -45 ≤ angle) then
      ⟨-50 * r1, height * r2⟩
    else if angle ≤ -45 ∧ -135 < angle then
      ⟨width * r1, 50 * r2 + height⟩
    else if (angle ≤ 180 ∧ 135 ≤ angle) ∨ (angle < -135 ∧ -180 ≤ angle) then
      ⟨50 * r1 + width, height * r2⟩
    else
      ⟨width * r1, -50 * r2⟩

/-- The interior of the visible play area. -/
def strictlyInside (p : Point) : Prop :=
  0 < p.x ∧ p.x < width ∧ 0 < p.y ∧ p.y < height

instance (p : Point) : Decidable (strictlyInside p) := by
  unfold strictlyInside; infer_instance

/-! ## Spawner and input handlers -/

/-- `spawnMine` (the `setInterval(spawnMine, 750)` callback): place one mine
at `pointOOB()` and add it to the mine group, unconditionally.  `angle` is
the current `mouseVector.angle`; the three draws feed `pointOOB`. -/
def spawnMine (s : GameState) (angle rB r1 r2 : ℚ) : GameState :=
  { s with mines := s.mines ++ [⟨pointOOB angle rB r1 r2, 0⟩] }

/-- `Game.onMouseDown`: place a laser at the ship's position rotated to
`mouseVector.angle` (passed as `ang`), push `mouseVector.normalize(7)`
(passed as `dir`) onto `laserDir`, and add the laser to the group. -/
def onMouseDown (s : GameState) (ang : ℚ) (dir : Point) : GameState :=
  { s with lasers := s.lasers ++ [⟨s.ship.pos, ang⟩],
           laserDir := s.laserDir ++ [dir] }

/-- `Game.onMouseMove`: store the new mouse vector and set
`ship.rotation = mouseVector.angle + 90` (the angle is passed as `ang`). -/
def onMouseMove (s : GameState) (mvNew : Point) (ang : ℚ) : GameState :=
  { s with mouseVector := mvNew, ship := { s.ship with rot := ang + 90 } }

/-! ## The off-screen rule as the spec words it (for C3) -/

/-- The §4.3 bucketing exactly as the spec words it: `[0,45)` or `(-45,0]` →
right edge; `(-135,-45]` → top edge; `[135,180]` or `[-180,-135)` → left
edge; otherwise bottom edge; the behind branch swaps edges.  Written from the
spec sentence, to be compared with `pointOOB` (which is written from the
source). -/
def specPointOOB (angle rB r1 r2 : ℚ) : Point :=
  if rB < 3 / 4 then
    if (0 ≤ angle ∧ angle < 45) ∨ (-45 < angle ∧ angle ≤ 0) then
      ⟨50 * r1 + width, height * r2⟩
    else if -135 < angle ∧ angle ≤ -45 then
      ⟨width * r1, -50 * r2⟩
    else if (135 ≤ angle ∧ angle ≤ 180) ∨ (-180 ≤ angle ∧ angle < -135) then
      ⟨-50 * r1, height * r2⟩
    else
      ⟨width * r1, 50 * r2 + height⟩
  else
    if (0 ≤ angle ∧ angle < 45) ∨ (-45 < angle ∧ angle ≤ 0) then
      ⟨-50 * r1, height * r2⟩
    else if -135 < angle ∧ angle ≤ -45 then
      ⟨width * r1, 50 * r2 + height⟩
    else if (135 ≤ angle ∧ angle ≤ 180) ∨ (-180 ≤ angle ∧ angle < -135) then
      ⟨50 * r1 + width, height * r2⟩
    else
      ⟨width * r1, -50 * r2⟩

/-! ## Concrete instances used for closed runs -/

/-- A circular proximity test with tolerance 30: the concrete instance of the
library's `hitTest(point, {fill, tolerance: 30})` used in closed runs (the
spec itself describes the collision as a circular proximity test with
tolerance 30). -/
def circleHit (p q : Point) : Bool :=
  if (p.x - q.x) ^ 2 + (p.y - q.y) ^ 2 ≤ 900 then true else false

/-- `paper.view.center.subtract(p).normalize(3)` evaluated on the horizontal
axis through the view center `(600, 400)`: for a point on `y = 400` the unit
vector toward the center is `(∓1, 0)`, so the result is `(∓3, 0)`; paper.js
maps the zero vector to itself.  Off that axis the closed runs below never
ask for the value, and `(0, 0)` stands in. -/
def homingEx (p : Point) : Point :=
  if p.y = 400 then
    if 600 < p.x then ⟨-3, 0⟩ else if p.x < 600 then ⟨3, 0⟩ else ⟨0, 0⟩
  else ⟨0, 0⟩

def envEx : Env := ⟨circleHit, circleHit, homingEx⟩

/-- One laser in flight and nothing else in the scene. -/
def soloLaserState (sh : Ship) (mv P D : Point) (r : ℚ) : GameState :=
  ⟨sh, [], [], [⟨P, r⟩], [], [D], mv⟩

/-- A scene with no stars, mines, lasers or explosions. -/
def clearedState (sh : Ship) (mv : Point) : GameState :=
  ⟨sh, [], [], [], [], [], mv⟩

/-- C1 run: one laser at `(690, 400)` about to move onto two mines at once
(mines at `(703, 400)` and `(723, 400)` home to `(700, 400)` and
`(720, 400)`, both within tolerance 30 of the translated laser at
`(697, 400)`), plus a second, far-away laser. -/
def stateC1 : GameState :=
  ⟨⟨⟨600, 400⟩, 0⟩, [],
   [⟨⟨703, 400⟩, 0⟩, ⟨⟨743, 400⟩, 0⟩, ⟨⟨723, 400⟩, 0⟩],
   [⟨⟨690, 400⟩, 0⟩, ⟨⟨100, 100⟩, 0⟩], [],
   [⟨7, 0⟩, ⟨7, 0⟩], ⟨0, 0⟩⟩

/-- C2 run: 32 mines (two timer spawns can land between two frames), all far
from the ship, nothing else in flight. -/
def stateC2 : GameState :=
  ⟨⟨⟨600, 400⟩, 0⟩, [], List.replicate 32 ⟨⟨650, 400⟩, 0⟩, [], [], [], ⟨0, 0⟩⟩

/-- A 31-mine variant of `stateC2` for the amended bound. -/
def stateC2cap : GameState :=
  ⟨⟨⟨600, 400⟩, 0⟩, [], List.replicate 31 ⟨⟨650, 400⟩, 0⟩, [], [], [], ⟨0, 0⟩⟩

/-- C9 run: two consecutive lasers, both already outside the play area. -/
def stateC9 : GameState :=
  ⟨⟨⟨600, 400⟩, 0⟩, [], [],
   [⟨⟨1250, 400⟩, 0⟩, ⟨⟨1260, 400⟩, 0⟩], [],
   [⟨7, 0⟩, ⟨7, 0⟩], ⟨0, 0⟩⟩

/-- A small scene with one mine, for witnesses. -/
def stateOneMine : GameState :=
  ⟨⟨⟨600, 400⟩, 0⟩, [], [⟨⟨50, 60⟩, 0⟩], [], [], [], ⟨0, 0⟩⟩

/-! # Theorems -/

/-! ## Point arithmetic helpers -/

theorem Point.add_def (p q : Point) : p + q = ⟨p.x + q.x, p.y + q.y⟩ := rfl

theorem Point.scale_def (c : ℚ) (p : Point) :
    Point.scale c p = ⟨c * p.x, c * p.y⟩ := rfl

theorem Point.add_scale_zero (P D : Point) : P + Point.scale 0 D = P := by
  cases P; cases D
  simp [Point.add_def, Point.scale_def]

theorem Point.add_scale_succ (n : ℚ) (P D : Point) :
    P + Point.scale (n + 1) D = (P + Point.scale n D) + D := by
  cases P; cases D
  simp only [Point.add_def, Point.scale_def, Point.mk.injEq]
  constructor <;> ring

/-! ## Generic facts about the forward scans -/

theorem scanLoop_inv {α : Type} (len : α → Nat) (body : α → Nat → α)
    (P : α → Prop) (hbody : ∀ s i, i < len s → P s → P (body s i)) :
    ∀ fuel s i, P s → P (scanLoop len body fuel s i) := by
  intro fuel
  induction fuel with
  | zero => intro s i hs; exact hs
  | succ f ih =>
    intro s i hs
    simp only [scanLoop]
    by_cases h : i < len s
    · rw [if_pos h]; exact ih _ _ (hbody _ _ h hs)
    · rw [if_neg h]; exact hs

/-- Fuel irrelevance: once the fuel covers `len s - i`, adding more changes
nothing, so starting each loop with the group's current length (as the
definitions above do) computes the loop's true fixpoint. -/
theorem scanLoop_fuel {α : Type} (len : α → Nat) (body : α → Nat → α)
    (hbody : ∀ s i, i < len s → len (body s i) ≤ len s) :
    ∀ fuel s i, len s ≤ i + fuel →
      scanLoop len body (fuel + 1) s i = scanLoop len body fuel s i := by
  intro fuel
  induction fuel with
  | zero =>
    intro s i h
    simp only [scanLoop]
    rw [if_neg (by omega)]
  | succ f ih =>
    intro s i h
    by_cases hc : i < len s
    · have step : ∀ g, scanLoop len body (g + 1) s i = scanLoop len body g (body s i) (i + 1) := by
        intro g; simp only [scanLoop]; rw [if_pos hc]
      rw [step (f + 1), step f]
      exact ih _ _ (le_trans (hbody s i hc) (by omega))
    · simp only [scanLoop]
      rw [if_neg hc, if_neg hc]

/-! ## `removeMine` bookkeeping -/

theorem eraseIdx_length_le {α : Type} (l : List α) (i : Nat) :
    (l.eraseIdx i).length ≤ l.length := by
  induction l generalizing i with
  | nil => simp [List.eraseIdx]
  | cons a t ih =>
    cases i with
    | zero => simp [List.eraseIdx]
    | succ j => simpa [List.eraseIdx] using ih j

theorem removeMine_ship (s : GameState) (j : Nat) :
    (removeMine s j).ship = s.ship := by
  cases h : s.mines[j]? <;> simp [removeMine, h]

theorem removeMine_mines_le (s : GameState) (j : Nat) :
    (removeMine s j).mines.length ≤ s.mines.length := by
  cases h : s.mines[j]? <;> simp [removeMine, h, eraseIdx_length_le]

/-! ## The frame update never touches the ship -/

theorem mineBody_ship (env : Env) (s : GameState) (i : Nat) :
    (mineBody env s i).ship = s.ship := by
  cases h : s.mines[i]? with
  | none => simp [mineBody, h]
  | some cur =>
    simp only [mineBody, h]
    split_ifs with hc
    · rw [removeMine_ship]
    · rfl

theorem laserHitBody_ship (env : Env) (i : Nat) (lp : Point)
    (sb : GameState × Bool) (j : Nat) :
    (laserHitBody env i lp sb j).1.ship = sb.1.ship := by
  cases h : sb.1.mines[j]? with
  | none => simp [laserHitBody, h]
  | some m =>
    simp only [laserHitBody, h]
    split_ifs with hc hb <;> simp [removeMine_ship]

theorem laserBody_ship (env : Env) (s : GameState) (i : Nat) :
    (laserBody env s i).ship = s.ship := by
  cases h : s.lasers[i]? with
  | none => simp [laserBody, h]
  | some cur =>
    simp only [laserBody, h]
    split_ifs with hc <;>
    · apply scanLoop_inv _ _ (fun sb => sb.1.ship = s.ship)
        (fun t j _ ht => (laserHitBody_ship env i _ t j).trans ht)
      rfl

theorem explosionBody_ship (s : GameState) (i : Nat) :
    (explosionBody s i).ship = s.ship := by
  cases h : s.explosions[i]? with
  | none => simp [explosionBody, h]
  | some cur =>
    simp only [explosionBody, h]
    split_ifs with hc <;> rfl

theorem update_ship (env : Env) (s : GameState) : (update env s).ship = s.ship := by
  simp only [update]
  have h1 : (starsStep s).ship = s.ship := rfl
  have h2 : (mineLoop env (starsStep s)).ship = s.ship :=
    scanLoop_inv _ _ (fun t => t.ship = s.ship)
      (fun t j _ ht => (mineBody_ship env t j).trans ht) _ _ _ h1
  have h3 : (laserLoop env (mineLoop env (starsStep s))).ship = s.ship :=
    scanLoop_inv _ _ (fun t => t.ship = s.ship)
      (fun t j _ ht => (laserBody_ship env t j).trans ht) _ _ _ h2
  have h4 : (explosionLoop (laserLoop env (mineLoop env (starsStep s)))).ship = s.ship :=
    scanLoop_inv _ _ (fun t => t.ship = s.ship)
      (fun t j _ ht => (explosionBody_ship t j).trans ht) _ _ _ h3
  split_ifs with hc
  · rw [removeMine_ship]; exact h4
  · exact h4

/-! ## The loops never grow the mine group -/

theorem mineBody_mines_le (env : Env) (s : GameState) (i : Nat) :
    (mineBody env s i).mines.length ≤ s.mines.length := by
  cases h : s.mines[i]? with
  | none => simp [mineBody, h]
  | some cur =>
    simp only [mineBody, h]
    split_ifs with hc
    · exact le_trans (removeMine_mines_le _ i) (by simp)
    · simp

theorem laserHitBody_mines_le (env : Env) (i : Nat) (lp : Point)
    (sb : GameState × Bool) (j : Nat) :
    (laserHitBody env i lp sb j).1.mines.length ≤ sb.1.mines.length := by
  cases h : sb.1.mines[j]? with
  | none => simp [laserHitBody, h]
  | some m =>
    simp only [laserHitBody, h]
    split_ifs with hc hb <;> simp [removeMine_mines_le, eraseIdx_length_le]

theorem laserBody_mines_le (env : Env) (s : GameState) (i : Nat) :
    (laserBody env s i).mines.length ≤ s.mines.length := by
  cases h : s.lasers[i]? with
  | none => simp [laserBody, h]
  | some cur =>
    simp only [laserBody, h]
    split_ifs with hc <;>
    · apply scanLoop_inv _ _ (fun sb => sb.1.mines.length ≤ s.mines.length)
        (fun t j _ ht => le_trans (laserHitBody_mines_le env i _ t j) ht)
      exact le_refl _

theorem explosionBody_mines (s : GameState) (i : Nat) :
    (explosionBody s i).mines = s.mines := by
  cases h : s.explosions[i]? with
  | none => simp [explosionBody, h]
  | some cur =>
    simp only [explosionBody, h]
    split_ifs with hc <;> rfl

theorem removeMine_zero_length (s : GameState) (h : 0 < s.mines.length) :
    (removeMine s 0).mines.length = s.mines.length - 1 := by
  cases hm : s.mines with
  | nil => rw [hm] at h; simp at h
  | cons a t =>
    unfold removeMine
    rw [hm]
    simp [List.eraseIdx]

theorem mineLoop_mines_le (env : Env) (s : GameState) :
    (mineLoop env s).mines.length ≤ s.mines.length := by
  apply scanLoop_inv _ _ (fun t => t.mines.length ≤ s.mines.length)
    (fun t j _ ht => le_trans (mineBody_mines_le env t j) ht)
  exact le_refl _

theorem laserLoop_mines_le (env : Env) (s : GameState) :
    (laserLoop env s).mines.length ≤ s.mines.length := by
  apply scanLoop_inv _ _ (fun t => t.mines.length ≤ s.mines.length)
    (fun t j _ ht => le_trans (laserBody_mines_le env t j) ht)
  exact le_refl _

theorem explosionLoop_mines (s : GameState) :
    (explosionLoop s).mines = s.mines := by
  apply scanLoop_inv _ _ (fun t => t.mines = s.mines)
    (fun t j _ ht => (explosionBody_mines t j).trans ht)
  rfl

/-! ## Claim C10 -/

/-- C10: a frame update leaves the ship record (position and rotation)
unchanged, whatever the state and however the library hit tests and homing
behave; the fire handler also leaves the ship unchanged, and the mouse-move
handler changes only the ship's rotation, never its position. -/
theorem C10_ship_untouched (env : Env) (s : GameState) (ang : ℚ) (d mvNew : Point) :
    (update env s).ship = s.ship ∧
    (onMouseDown s ang d).ship = s.ship ∧
    (onMouseMove s mvNew ang).ship.pos = s.ship.pos :=
  ⟨update_ship env s, rfl, rfl⟩

/-! ## Claim C2 -/

/-- C2 (amended): the update's population cap destroys the single oldest
mine when the count exceeds 30, so the bound `mines.length ≤ 30` is restored
by the end of any update that starts with at most 31 mines — in particular
whenever the bound was first exceeded by a single spawn.  (A start above 31
is reduced by only one by the cap; see the counterexample.) -/
theorem C2_cap_restores_bound (env : Env) (s : GameState)
    (h : s.mines.length ≤ 31) : (update env s).mines.length ≤ 30 := by
  simp only [update]
  have hs : (starsStep s).mines.length = s.mines.length := rfl
  have h4 : (explosionLoop (laserLoop env (mineLoop env (starsStep s)))).mines.length ≤ 31 := by
    rw [explosionLoop_mines]
    exact le_trans (laserLoop_mines_le env _)
      (le_trans (mineLoop_mines_le env _) (le_of_eq_of_le hs h))
  split_ifs with hc
  · rw [removeMine_zero_length _ (by omega)]; omega
  · omega

theorem C2_cap_witness : stateC2cap.mines.length ≤ 31 ∧
    (update envEx stateC2cap).mines.length ≤ 30 :=
  ⟨by simp [stateC2cap], C2_cap_restores_bound envEx stateC2cap (by simp [stateC2cap])⟩

/-! ## Claim C7 -/

/-- C7: `removeMine` creates exactly one explosion, placed at the destroyed
mine's position, appends it to the explosion group, and removes exactly one
mine; every other part of the state is untouched.  All three triggers (ship
collision in the mine loop, laser hit in the laser loop, population-cap
eviction) invoke this same operation, as `mineBody`, `laserHitBody` and
`update` show. -/
theorem C7_removeMine (s : GameState) (j : Nat) (h : j < s.mines.length) :
    (removeMine s j).explosions = s.explosions ++ [⟨s.mines[j].pos, 2⟩] ∧
    (removeMine s j).explosions.length = s.explosions.length + 1 ∧
    (removeMine s j).mines = s.mines.eraseIdx j ∧
    (removeMine s j).mines.length + 1 = s.mines.length ∧
    (removeMine s j).lasers = s.lasers ∧
    (removeMine s j).laserDir = s.laserDir ∧
    (removeMine s j).stars = s.stars ∧
    (removeMine s j).ship = s.ship := by
  have hsome : s.mines[j]? = some s.mines[j] := List.getElem?_eq_getElem h
  unfold removeMine
  rw [hsome]
  refine ⟨rfl, by simp, rfl, ?_, rfl, rfl, rfl, rfl⟩
  exact List.length_eraseIdx_add_one h

theorem C7_witness :
    (removeMine stateOneMine 0).explosions.length = stateOneMine.explosions.length + 1 ∧
    (removeMine stateOneMine 0).mines.length + 1 = stateOneMine.mines.length :=
  ⟨(C7_removeMine stateOneMine 0 (by simp [stateOneMine])).2.1,
   (C7_removeMine stateOneMine 0 (by simp [stateOneMine])).2.2.2.1⟩

/-! ## Claim C8 -/

/-- C8: each firing of the spawner appends exactly one mine to the mine
group, placed at the point the off-screen rule produced, unconditionally:
there is no check of the current count (the statement holds for every state,
including ones with more than 30 mines), the previous mines all survive as a
prefix, and no other group is touched. -/
theorem C8_spawn_unconditional (s : GameState) (angle rB r1 r2 : ℚ) :
    (spawnMine s angle rB r1 r2).mines = s.mines ++ [⟨pointOOB angle rB r1 r2, 0⟩] ∧
    (spawnMine s angle rB r1 r2).mines.length = s.mines.length + 1 ∧
    (spawnMine s angle rB r1 r2).lasers = s.lasers ∧
    (spawnMine s angle rB r1 r2).explosions = s.explosions ∧
    (spawnMine s angle rB r1 r2).laserDir = s.laserDir ∧
    (spawnMine s angle rB r1 r2).stars = s.stars ∧
    (spawnMine s angle rB r1 r2).ship = s.ship :=
  ⟨rfl, by simp [spawnMine], rfl, rfl, rfl, rfl, rfl⟩

/-! ## Claim C6 -/

/-- C6: one application of the wrap rule sends `x = width + 5` to `5`, which
lies in `[0, width)`, and sends `x = -3` to `width` itself (the clamp-to-max
policy, not a symmetric modulo); the very same rule acts on the `y`
coordinate with bound `height`, as the star update applies it to both
coordinates independently. -/
theorem C6_star_wrap :
    wrapCoord (width + 5) width = 5 ∧
    (0 ≤ wrapCoord (width + 5) width ∧ wrapCoord (width + 5) width < width) ∧
    wrapCoord (-3) width = width ∧
    wrapCoord (height + 5) height = 5 ∧
    wrapCoord (-3) height = height ∧
    (starUpdate ⟨0, 0⟩ ⟨⟨width + 5, -3⟩, 1⟩).pos = ⟨5, height⟩ := by
  have t1 : Int.tdiv 241 240 = 1 := by decide
  have t2 : Int.tdiv (-1) 400 = 0 := by decide
  have t3 : Int.tdiv 161 160 = 1 := by decide
  have t4 : Int.tdiv (-3) 800 = 0 := by decide
  norm_num [wrapCoord, jsMod, ratTrunc, width, height, mouseSensetivity,
    starUpdate, Point.add_def, Point.scale_def, t1, t2, t3, t4]

/-! ## The four angle buckets of `pointOOB` -/

theorem condR_holds {angle : ℚ} (h1 : -45 ≤ angle) (h2 : angle < 45) :
    (angle < 45 ∧ 0 ≤ angle) ∨ (angle < 0 ∧ -45 ≤ angle) := by
  rcases le_or_lt 0 angle with h | h
  · exact Or.inl ⟨h2, h⟩
  · exact Or.inr ⟨h, h1⟩

theorem condR_fails_lt {angle : ℚ} (h : angle < -45) :
    ¬ ((angle < 45 ∧ 0 ≤ angle) ∨ (angle < 0 ∧ -45 ≤ angle)) := by
  rintro (⟨a, b⟩ | ⟨a, b⟩) <;> linarith

theorem condR_fails_left {angle : ℚ}
    (h : (135 ≤ angle ∧ angle ≤ 180) ∨ (-180 ≤ angle ∧ angle < -135)) :
    ¬ ((angle < 45 ∧ 0 ≤ angle) ∨ (angle < 0 ∧ -45 ≤ angle)) := by
  rcases h with ⟨h1, h2⟩ | ⟨h1, h2⟩ <;> rintro (⟨a, b⟩ | ⟨a, b⟩) <;> linarith

theorem condT_fails_left {angle : ℚ}
    (h : (135 ≤ angle ∧ angle ≤ 180) ∨ (-180 ≤ angle ∧ angle < -135)) :
    ¬ (angle ≤ -45 ∧ -135 < angle) := by
  rcases h with ⟨h1, h2⟩ | ⟨h1, h2⟩ <;> rintro ⟨a, b⟩ <;> linarith

theorem condL_holds {angle : ℚ}
    (h : (135 ≤ angle ∧ angle ≤ 180) ∨ (-180 ≤ angle ∧ angle < -135)) :
    (angle ≤ 180 ∧ 135 ≤ angle) ∨ (angle < -135 ∧ -180 ≤ angle) := by
  rcases h with ⟨h1, h2⟩ | ⟨h1, h2⟩
  · exact Or.inl ⟨h2, h1⟩
  · exact Or.inr ⟨h2, h1⟩

theorem condR_fails_bottom {angle : ℚ}
    (h : (45 ≤ angle ∧ angle < 135) ∨ angle = -135) :
    ¬ ((angle < 45 ∧ 0 ≤ angle) ∨ (angle < 0 ∧ -45 ≤ angle)) := by
  rcases h with ⟨h1, h2⟩ | rfl <;> rintro (⟨a, b⟩ | ⟨a, b⟩) <;> linarith

theorem condT_fails_bottom {angle : ℚ}
    (h : (45 ≤ angle ∧ angle < 135) ∨ angle = -135) :
    ¬ (angle ≤ -45 ∧ -135 < angle) := by
  rcases h with ⟨h1, h2⟩ | rfl <;> rintro ⟨a, b⟩ <;> linarith

theorem condL_fails_bottom {angle : ℚ}
    (h : (45 ≤ angle ∧ angle < 135) ∨ angle = -135) :
    ¬ ((angle ≤ 180 ∧ 135 ≤ angle) ∨ (angle < -135 ∧ -180 ≤ angle)) := by
  rcases h with ⟨h1, h2⟩ | rfl <;> rintro (⟨a, b⟩ | ⟨a, b⟩) <;> linarith

theorem pointOOB_right {angle : ℚ} (rB r1 r2 : ℚ) (h1 : -45 ≤ angle) (h2 : angle < 45) :
    pointOOB angle rB r1 r2 =
      if rB < 3 / 4 then ⟨50 * r1 + width, height * r2⟩
      else ⟨-50 * r1, height * r2⟩ := by
  have hc := condR_holds h1 h2
  unfold pointOOB
  by_cases hB : rB < 3 / 4
  · rw [if_pos hB, if_pos hc, if_pos hB]
  · rw [if_neg hB, if_pos hc, if_neg hB]

theorem pointOOB_top {angle : ℚ} (rB r1 r2 : ℚ) (h1 : -135 < angle) (h2 : angle < -45) :
    pointOOB angle rB r1 r2 =
      if rB < 3 / 4 then ⟨width * r1, -50 * r2⟩
      else ⟨width * r1, 50 * r2 + height⟩ := by
  have hcR := condR_fails_lt h2
  have hcT : angle ≤ -45 ∧ -135 < angle := ⟨le_of_lt h2, h1⟩
  unfold pointOOB
  by_cases hB : rB < 3 / 4
  · rw [if_pos hB, if_neg hcR, if_pos hcT, if_pos hB]
  · rw [if_neg hB, if_neg hcR, if_pos hcT, if_neg hB]

theorem pointOOB_left {angle : ℚ} (rB r1 r2 : ℚ)
    (h : (135 ≤ angle ∧ angle ≤ 180) ∨ (-180 ≤ angle ∧ angle < -135)) :
    pointOOB angle rB r1 r2 =
      if rB < 3 / 4 then ⟨-50 * r1, height * r2⟩
      else ⟨50 * r1 + width, height * r2⟩ := by
  have hcR := condR_fails_left h
  have hcT := condT_fails_left h
  have hcL := condL_holds h
  unfold pointOOB
  by_cases hB : rB < 3 / 4
  · rw [if_pos hB, if_neg hcR, if_neg hcT, if_pos hcL, if_pos hB]
  · rw [if_neg hB, if_neg hcR, if_neg hcT, if_pos hcL, if_neg hB]

theorem pointOOB_bottom {angle : ℚ} (rB r1 r2 : ℚ)
    (h : (45 ≤ angle ∧ angle < 135) ∨ angle = -135) :
    pointOOB angle rB r1 r2 =
      if rB < 3 / 4 then ⟨width * r1, 50 * r2 + height⟩
      else ⟨width * r1, -50 * r2⟩ := by
  have hcR := condR_fails_bottom h
  have hcT := condT_fails_bottom h
  have hcL := condL_fails_bottom h
  unfold pointOOB
  by_cases hB : rB < 3 / 4
  · rw [if_pos hB, if_neg hcR, if_neg hcT, if_neg hcL, if_pos hB]
  · rw [if_neg hB, if_neg hcR, if_neg hcT, if_neg hcL, if_neg hB]

/-! ## Claim C3 -/

/-- C3 (corrected): the code's ahead-branch buckets are `[-45, 45)` → right
edge, `(-135, -45)` → top edge, `[135, 180]` together with `[-180, -135)` →
left edge, and `[45, 135)` together with exactly `-135` → bottom edge; the
behind branch assigns the opposite edge on the same buckets.  This differs
from the claim only at angle `-45`: the code's first condition
(`angle < 0 && angle >= -45`) captures `-45` into the right-edge bucket,
whereas the claim's buckets `(-45, 0]` / `(-135, -45]` put it on the top
edge. -/
theorem C3_buckets (angle rB r1 r2 : ℚ) :
    ((-45 ≤ angle ∧ angle < 45) →
      pointOOB angle rB r1 r2 =
        if rB < 3 / 4 then ⟨50 * r1 + width, height * r2⟩
        else ⟨-50 * r1, height * r2⟩) ∧
    ((-135 < angle ∧ angle < -45) →
      pointOOB angle rB r1 r2 =
        if rB < 3 / 4 then ⟨width * r1, -50 * r2⟩
        else ⟨width * r1, 50 * r2 + height⟩) ∧
    (((135 ≤ angle ∧ angle ≤ 180) ∨ (-180 ≤ angle ∧ angle < -135)) →
      pointOOB angle rB r1 r2 =
        if rB < 3 / 4 then ⟨-50 * r1, height * r2⟩
        else ⟨50 * r1 + width, height * r2⟩) ∧
    (((45 ≤ angle ∧ angle < 135) ∨ angle = -135) →
      pointOOB angle rB r1 r2 =
        if rB < 3 / 4 then ⟨width * r1, 50 * r2 + height⟩
        else ⟨width * r1, -50 * r2⟩) :=
  ⟨fun h => pointOOB_right rB r1 r2 h.1 h.2,
   fun h => pointOOB_top rB r1 r2 h.1 h.2,
   fun h => pointOOB_left rB r1 r2 h,
   fun h => pointOOB_bottom rB r1 r2 h⟩

theorem C3_buckets_witness :
    pointOOB (-90) 0 (1 / 2) (1 / 3) = ⟨width * (1 / 2), -50 * (1 / 3)⟩ := by
  have h := (C3_buckets (-90) 0 (1 / 2) (1 / 3)).2.1 ⟨by norm_num, by norm_num⟩
  rw [h, if_pos (by norm_num)]

/-- C3's counterexample: at aim angle `-45` with the ahead branch forced, the
code produces a right-edge point while the buckets worded in the spec
(`specPointOOB`) produce a top-edge point. -/
theorem C3_counterexample :
    pointOOB (-45) 0 (1 / 2) (1 / 2) = ⟨1225, 400⟩ ∧
    specPointOOB (-45) 0 (1 / 2) (1 / 2) = ⟨600, -25⟩ ∧
    pointOOB (-45) 0 (1 / 2) (1 / 2) ≠ specPointOOB (-45) 0 (1 / 2) (1 / 2) := by
  norm_num [pointOOB, specPointOOB, width, height]

/-! ## Claim C4 -/

/-- C4 (amended): the generated point never lies strictly inside the play
area, and at aim angle 0° the ahead branch always satisfies `x ≥ width`
while the behind branch always satisfies `x ≤ 0`; the strict inequalities of
the claim fail exactly on the boundary draw `Math.random() = 0`. -/
theorem C4_never_inside (angle rB r1 r2 : ℚ) (hr1 : 0 ≤ r1) (hr2 : 0 ≤ r2) :
    ¬ strictlyInside (pointOOB angle rB r1 r2) ∧
    (rB < 3 / 4 → width ≤ (pointOOB 0 rB r1 r2).x) ∧
    (3 / 4 ≤ rB → (pointOOB 0 rB r1 r2).x ≤ 0) := by
  refine ⟨?_, ?_, ?_⟩
  · unfold pointOOB
    split_ifs <;>
      simp only [strictlyInside, width, height, not_and, not_lt] <;>
      intros <;> linarith
  · intro hB
    rw [pointOOB_right rB r1 r2 (by norm_num) (by norm_num), if_pos hB]
    show width ≤ 50 * r1 + width
    unfold width
    linarith
  · intro hB
    rw [pointOOB_right rB r1 r2 (by norm_num) (by norm_num),
      if_neg (by linarith)]
    show -50 * r1 ≤ 0
    linarith

theorem C4_witness :
    ¬ strictlyInside (pointOOB 30 0 (1 / 2) (1 / 2)) ∧
    width ≤ (pointOOB 0 0 (1 / 2) (1 / 2)).x ∧
    (pointOOB 0 (4 / 5) (1 / 2) (1 / 2)).x ≤ 0 :=
  ⟨(C4_never_inside 30 0 (1 / 2) (1 / 2) (by norm_num) (by norm_num)).1,
   (C4_never_inside 0 0 (1 / 2) (1 / 2) (by norm_num) (by norm_num)).2.1 (by norm_num),
   (C4_never_inside 0 (4 / 5) (1 / 2) (1 / 2) (by norm_num) (by norm_num)).2.2 (by norm_num)⟩

/-- C4's counterexample: `Math.random()` can return 0, and with that draw the
ahead branch at angle 0 lands exactly on `x = width` (not `x > width`) and
the behind branch exactly on `x = 0` (not `x < 0`); both points lie on the
boundary of the closed play area rather than outside it. -/
theorem C4_counterexample :
    pointOOB 0 0 0 (1 / 2) = ⟨1200, 400⟩ ∧
    ¬ (width < (pointOOB 0 0 0 (1 / 2)).x) ∧
    pointOOB 0 (4 / 5) 0 (1 / 2) = ⟨0, 400⟩ ∧
    ¬ ((pointOOB 0 (4 / 5) 0 (1 / 2)).x < 0) := by
  norm_num [pointOOB, width, height]

/-! ## Claim C5: the solo laser -/

theorem update_solo_in (env : Env) (sh : Ship) (mv P D : Point) (r : ℚ)
    (h : laserOOB (P + D) = false) :
    update env (soloLaserState sh mv P D r) = soloLaserState sh mv (P + D) D r := by
  simp [update, starsStep, mineLoop, laserLoop, explosionLoop, scanLoop,
    laserBody, soloLaserState, List.getD, h]

theorem update_solo_out (env : Env) (sh : Ship) (mv P D : Point) (r : ℚ)
    (h : laserOOB (P + D) = true) :
    update env (soloLaserState sh mv P D r) = clearedState sh mv := by
  simp [update, starsStep, mineLoop, laserLoop, explosionLoop, scanLoop,
    laserBody, soloLaserState, clearedState, List.getD, h, List.eraseIdx]

/-- C5: with no mines in the scene, a laser fired at `P` with stored
direction `D` sits exactly at `P + n·D` after `n` frame updates — its paired
direction entry intact — provided every intermediate position stayed inside
the closed play area `[0, width] × [0, height]`; and the laser and its
paired direction entry are both removed on exactly the first update whose
translated position leaves that rectangle. -/
theorem C5_laser_lifecycle (env : Env) (sh : Ship) (mv P D : Point) (r : ℚ) (n : ℕ)
    (hin : ∀ k : ℕ, 1 ≤ k → k ≤ n → laserOOB (P + Point.scale (k : ℚ) D) = false) :
    iterUpdate env n (soloLaserState sh mv P D r) =
      soloLaserState sh mv (P + Point.scale (n : ℚ) D) D r ∧
    (laserOOB (P + Point.scale ((n : ℚ) + 1) D) = true →
      iterUpdate env (n + 1) (soloLaserState sh mv P D r) = clearedState sh mv) := by
  have main : ∀ m : ℕ,
      (∀ k : ℕ, 1 ≤ k → k ≤ m → laserOOB (P + Point.scale (k : ℚ) D) = false) →
      iterUpdate env m (soloLaserState sh mv P D r) =
        soloLaserState sh mv (P + Point.scale (m : ℚ) D) D r := by
    intro m
    induction m with
    | zero => intro _; simp only [iterUpdate, Nat.cast_zero, Point.add_scale_zero]
    | succ l ih =>
      intro hm
      have hstep : laserOOB ((P + Point.scale (l : ℚ) D) + D) = false := by
        have h1 := hm (l + 1) (by omega) (le_refl _)
        rw [Nat.cast_add, Nat.cast_one, Point.add_scale_succ] at h1
        exact h1
      have hcast : ((l + 1 : ℕ) : ℚ) = (l : ℚ) + 1 := by push_cast; ring
      calc iterUpdate env (l + 1) (soloLaserState sh mv P D r)
          = update env (iterUpdate env l (soloLaserState sh mv P D r)) := rfl
        _ = update env (soloLaserState sh mv (P + Point.scale (l : ℚ) D) D r) := by
            rw [ih (fun k h1 h2 => hm k h1 (le_trans h2 (Nat.le_succ l)))]
        _ = soloLaserState sh mv ((P + Point.scale (l : ℚ) D) + D) D r :=
            update_solo_in env sh mv _ D r hstep
        _ = soloLaserState sh mv (P + Point.scale ((l + 1 : ℕ) : ℚ) D) D r := by
            rw [hcast, Point.add_scale_succ]
  refine ⟨main n hin, fun hout => ?_⟩
  have h1 : iterUpdate env (n + 1) (soloLaserState sh mv P D r)
      = update env (soloLaserState sh mv (P + Point.scale (n : ℚ) D) D r) := by
    show update env (iterUpdate env n (soloLaserState sh mv P D r)) = _
    rw [main n hin]
  rw [h1]
  apply update_solo_out
  rw [Point.add_scale_succ] at hout
  exact hout

theorem C5_witness :
    iterUpdate envEx 2 (soloLaserState ⟨⟨600, 400⟩, 0⟩ ⟨0, 0⟩ ⟨600, 400⟩ ⟨7, 0⟩ 0) =
      soloLaserState ⟨⟨600, 400⟩, 0⟩ ⟨0, 0⟩
        (⟨600, 400⟩ + Point.scale ((2 : ℕ) : ℚ) ⟨7, 0⟩) ⟨7, 0⟩ 0 :=
  (C5_laser_lifecycle envEx ⟨⟨600, 400⟩, 0⟩ ⟨0, 0⟩ ⟨600, 400⟩ ⟨7, 0⟩ 0 2
    (by
      intro k h1 h2
      interval_cases k <;>
        norm_num [laserOOB, Point.add_def, Point.scale_def, width, height])).1

/-! ## Claim C1 -/

/-- C1: the index-alignment invariant is broken by the code.  In `stateC1`
the first laser translates onto two mines at once; the inner scan then runs
`laserDir.splice(i, 1)` once per hit while `curLaser.remove()` detaches the
laser only once, so the update ends with one laser but zero direction
entries (the second laser's direction was spliced away).  The very next
frame would read `laserDir[0]` as `undefined`. -/
theorem C1_misalignment :
    (update envEx stateC1).lasers = [⟨⟨100, 100⟩, 0⟩] ∧
    (update envEx stateC1).laserDir = [] ∧
    (update envEx stateC1).lasers.length ≠ (update envEx stateC1).laserDir.length := by
  norm_num [update, starsStep, mineLoop, laserLoop, explosionLoop, scanLoop,
    mineBody, laserBody, laserHitBody, explosionBody, removeMine, laserOOB,
    envEx, stateC1, width, height, mouseSensetivity, Point.add_def,
    Point.scale_def, List.getD, List.eraseIdx, circleHit, homingEx]

set_option maxRecDepth 4000 in
/-- C2's counterexample: from 32 mines (reachable when two 750 ms spawns land
between two frames) the update's cap removes only the single oldest mine, so
the count is 31, still above the bound, at the end of the very update that
began above it. -/
theorem C2_counterexample :
    30 < stateC2.mines.length ∧
    ¬ ((update envEx stateC2).mines.length ≤ 30) := by
  norm_num [update, starsStep, mineLoop, laserLoop, explosionLoop, scanLoop,
    mineBody, laserBody, laserHitBody, explosionBody, removeMine, laserOOB,
    envEx, stateC2, width, height, mouseSensetivity, Point.add_def,
    Point.scale_def, List.getD, List.eraseIdx, circleHit, homingEx,
    List.replicate]

/-! ## Claim C9 -/

/-- C9: removal during the forward scan skips the shifted neighbour.  In
`stateC9` both lasers are outside the play area; the first is removed
(together with its direction entry), which shifts the second into index 0,
and the loop then exits with `i = 1 ≥ length`, so a single frame update
removes only the first of the two — the second survives, untranslated, with
its direction entry still paired. -/
theorem C9_forward_scan_skip :
    laserOOB ⟨1250, 400⟩ = true ∧
    laserOOB ⟨1260, 400⟩ = true ∧
    (update envEx stateC9).lasers = [⟨⟨1260, 400⟩, 0⟩] ∧
    (update envEx stateC9).laserDir = [⟨7, 0⟩] := by
  norm_num [update, starsStep, mineLoop, laserLoop, explosionLoop, scanLoop,
    mineBody, laserBody, laserHitBody, explosionBody, removeMine, laserOOB,
    envEx, stateC9, width, height, mouseSensetivity, Point.add_def,
    Point.scale_def, List.getD, List.eraseIdx, circleHit, homingEx]


end Game
